import Mathlib

/-!
Shallow embedding of the `ldap3_server` protocol codec (`src/proto.rs`).

The file first translates the data model and every encode/decode function of
`proto.rs` into executable Lean definitions, then proves the claims about the
spec against those definitions.

Modelling conventions:
* Rust `u8` bytes are `Nat`s; theorems that quantify over byte sequences carry
  a `b < 256` hypothesis where the numeric value matters.
* Rust `String` is modelled by its UTF-8 byte list; `String::from_utf8` becomes
  a UTF-8 validity check returning the same bytes.
* Fallible Rust code returning `Option`/`Result<_, ()>` lands in `PRes`, which
  also has an explicit `panic` outcome so that panicking operations (array
  indexing inside `ber_integer_to_i64`, the `unimplemented!()` macro on the
  encode side) are visible in the model.
* Machine integers (`i64`, `i32`) are `Int` with explicit wrap-around
  arithmetic where the Rust code narrows.
-/

/-- The ASN.1 tag classes of `lber::common::TagClass`. -/
inductive TagClass where
  | Universal
  | Application
  | Context
  | Private
deriving DecidableEq, Repr

/-- `lber::structure::StructureTag`: a BER tagged node.  The Rust type pairs a
class and a tag id with a payload `PL::P(Vec<u8>)` (primitive) or
`PL::C(Vec<StructureTag>)` (constructed); we fuse the payload enum into the
node constructor. -/
inductive StructureTag where
  | prim (cls : TagClass) (id : Nat) (bytes : List Nat)
  | cons (cls : TagClass) (id : Nat) (children : List StructureTag)

namespace StructureTag

/-- The node's tag class (the Rust field `class`). -/
def cls : StructureTag → TagClass
  | .prim c _ _ => c
  | .cons c _ _ => c

/-- The node's tag number (the Rust field `id`). -/
def id : StructureTag → Nat
  | .prim _ i _ => i
  | .cons _ i _ => i

/-- `StructureTag::match_class`. -/
def match_class (t : StructureTag) (c : TagClass) : Option StructureTag :=
  if t.cls = c then some t else none

/-- `StructureTag::match_id`. -/
def match_id (t : StructureTag) (i : Nat) : Option StructureTag :=
  if t.id = i then some t else none

/-- `StructureTag::expect_constructed`. -/
def expect_constructed : StructureTag → Option (List StructureTag)
  | .cons _ _ kids => some kids
  | .prim _ _ _ => none

/-- `StructureTag::expect_primitive`. -/
def expect_primitive : StructureTag → Option (List Nat)
  | .prim _ _ bs => some bs
  | .cons _ _ _ => none

end StructureTag

/-- Outcome of a fallible Rust computation: `ok` = `Ok`/`Some`, `err` = the
unit error `Err(())`/`None`, `panic` = process abort (index out of bounds,
`unimplemented!()`). -/
inductive PRes (α : Type) where
  | ok (a : α)
  | err
  | panic
deriving DecidableEq, Repr

namespace PRes

/-- Sequencing: an error or panic short-circuits. -/
def bind {α β : Type} : PRes α → (α → PRes β) → PRes β
  | .ok a, f => f a
  | .err, _ => .err
  | .panic, _ => .panic

end PRes

/-- `Option::ok_or(())` followed by `?`: lift an option chain into `PRes`. -/
def optRes {α : Type} : Option α → PRes α
  | some a => .ok a
  | none => .err

/-- `Vec::pop`: removes and returns the last element. -/
def listPop {α : Type} (l : List α) : Option α × List α :=
  (l.getLast?, l.dropLast)

/-- The write loop of `ber_integer_to_i64`:
`for i in 0..bv.len() { raw[base + i] = bv[i]; }` with the bounds check of
Rust slice indexing made explicit (out of bounds = panic). -/
def arrWriteLoop (base : Nat) : List Nat → Nat → List Nat → PRes (List Nat)
  | [], _, raw => .ok raw
  | b :: rest, i, raw =>
    if base + i < raw.length then
      arrWriteLoop base rest (i + 1) (raw.set (base + i) b)
    else
      .panic

/-- `i64::from_be_bytes`: big-endian two's-complement reading of 8 bytes. -/
def i64_from_be_bytes (raw : List Nat) : Int :=
  let n := raw.foldl (fun a b => a * 256 + b % 256) (0 : Nat)
  if n < 2 ^ 63 then (n : Int) else (n : Int) - (2 : Int) ^ 64

/-- `ber_integer_to_i64` from `proto.rs`: rejects inputs longer than 8 bytes,
otherwise right-aligns the bytes in a zero-initialised 8-byte buffer and reads
it as a big-endian `i64` (note: zero-padding, no sign extension). -/
def ber_integer_to_i64 (bv : List Nat) : PRes Int :=
  if bv.length > 8 then .err
  else
    (arrWriteLoop (8 - bv.length) bv 0 (List.replicate 8 0)).bind
      (fun raw => .ok (i64_from_be_bytes raw))

/-- The Rust cast `i as i32`: keep the low 32 bits, reinterpreted as a signed
32-bit value. -/
def i64_as_i32 (i : Int) : Int := (i + 2 ^ 31) % 2 ^ 32 - 2 ^ 31

/-- Is `b` a UTF-8 continuation byte (`0x80..=0xBF`)? -/
def isCont (b : Nat) : Bool := 0x80 ≤ b && b ≤ 0xBF

/-- UTF-8 validity of a byte sequence, as checked by `String::from_utf8`
(well-formed sequence lengths, no overlongs, no surrogates, max U+10FFFF). -/
def utf8Valid : List Nat → Bool
  | [] => true
  | b :: r =>
    if b ≤ 0x7F then utf8Valid r
    else if 0xC2 ≤ b && b ≤ 0xDF then
      match r with
      | c1 :: r2 => isCont c1 && utf8Valid r2
      | [] => false
    else if b = 0xE0 then
      match r with
      | c1 :: c2 :: r2 => (0xA0 ≤ c1 && c1 ≤ 0xBF) && isCont c2 && utf8Valid r2
      | _ => false
    else if (0xE1 ≤ b && b ≤ 0xEC) || b = 0xEE || b = 0xEF then
      match r with
      | c1 :: c2 :: r2 => isCont c1 && isCont c2 && utf8Valid r2
      | _ => false
    else if b = 0xED then
      match r with
      | c1 :: c2 :: r2 => (0x80 ≤ c1 && c1 ≤ 0x9F) && isCont c2 && utf8Valid r2
      | _ => false
    else if b = 0xF0 then
      match r with
      | c1 :: c2 :: c3 :: r2 =>
        (0x90 ≤ c1 && c1 ≤ 0xBF) && isCont c2 && isCont c3 && utf8Valid r2
      | _ => false
    else if 0xF1 ≤ b && b ≤ 0xF3 then
      match r with
      | c1 :: c2 :: c3 :: r2 =>
        isCont c1 && isCont c2 && isCont c3 && utf8Valid r2
      | _ => false
    else if b = 0xF4 then
      match r with
      | c1 :: c2 :: c3 :: r2 =>
        (0x80 ≤ c1 && c1 ≤ 0x8F) && isCont c2 && isCont c3 && utf8Valid r2
      | _ => false
    else false

/-- `String::from_utf8(bv).ok()`: a Rust `String` is modelled as its UTF-8
byte list, so success returns the same bytes. -/
def from_utf8 (bv : List Nat) : Option (List Nat) :=
  if utf8Valid bv then some bv else none

/-- A Rust `String`, modelled as its UTF-8 byte list. -/
abbrev RString : Type := List Nat

/-- `LdapResultCode` with the `#[repr(i64)]` discriminants of `proto.rs`. -/
inductive LdapResultCode where
  | Success
  | OperationsError
  | ProtocolError
  | TimeLimitExceeded
  | SizeLimitExceeded
  | CompareFalse
  | CompareTrue
  | AuthMethodNotSupported
  | StrongerAuthRequired
  | Referral
  | AdminLimitExceeded
  | UnavailableCriticalExtension
  | ConfidentialityRequired
  | SaslBindInProgress
  | NoSuchAttribute
  | UndefinedAttributeType
  | InappropriateMatching
  | ConstraintViolation
  | AttributeOrValueExists
  | InvalidAttributeSyntax
  | NoSuchObject
  | AliasProblem
  | InvalidDNSyntax
  | AliasDereferencingProblem
  | InappropriateAuthentication
  | InvalidCredentials
  | InsufficentAccessRights
  | Busy
  | Unavailable
  | UnwillingToPerform
  | LoopDetect
  | NamingViolation
  | ObjectClassViolation
  | NotAllowedOnNonLeaf
  | NotALlowedOnRDN
  | EntryAlreadyExists
  | ObjectClassModsProhibited
  | AffectsMultipleDSAs
  | Other
deriving DecidableEq, Repr

namespace LdapResultCode

/-- The Rust cast `code as i64`: the `#[repr(i64)]` discriminant values. -/
def toI64 : LdapResultCode → Int
  | .Success => 0
  | .OperationsError => 1
  | .ProtocolError => 2
  | .TimeLimitExceeded => 3
  | .SizeLimitExceeded => 4
  | .CompareFalse => 5
  | .CompareTrue => 6
  | .AuthMethodNotSupported => 7
  | .StrongerAuthRequired => 8
  | .Referral => 10
  | .AdminLimitExceeded => 11
  | .UnavailableCriticalExtension => 12
  | .ConfidentialityRequired => 13
  | .SaslBindInProgress => 14
  | .NoSuchAttribute => 16
  | .UndefinedAttributeType => 17
  | .InappropriateMatching => 18
  | .ConstraintViolation => 19
  | .AttributeOrValueExists => 20
  | .InvalidAttributeSyntax => 21
  | .NoSuchObject => 32
  | .AliasProblem => 33
  | .InvalidDNSyntax => 34
  | .AliasDereferencingProblem => 35
  | .InappropriateAuthentication => 48
  | .InvalidCredentials => 49
  | .InsufficentAccessRights => 50
  | .Busy => 51
  | .Unavailable => 52
  | .UnwillingToPerform => 53
  | .LoopDetect => 54
  | .NamingViolation => 64
  | .ObjectClassViolation => 65
  | .NotAllowedOnNonLeaf => 66
  | .NotALlowedOnRDN => 67
  | .EntryAlreadyExists => 68
  | .ObjectClassModsProhibited => 69
  | .AffectsMultipleDSAs => 71
  | .Other => 80

/-- `TryFrom<i64> for LdapResultCode` from `proto.rs`: only `0` is accepted,
every other integer is `Err(())`. -/
def try_from (value : Int) : PRes LdapResultCode :=
  if value = 0 then .ok .Success else .err

end LdapResultCode

/-- `LdapResult` (the shared result block). `referral` is Rust `Vec<()>`. -/
structure LdapResult where
  code : LdapResultCode
  matcheddn : RString
  message : RString
  referral : List Unit
deriving DecidableEq

/-- `LdapSimpleBind`. -/
structure LdapSimpleBind where
  dn : RString
  pw : RString
deriving DecidableEq

/-- `LdapBindResponse`. -/
structure LdapBindResponse where
  res : LdapResult
  saslcreds : Option RString
deriving DecidableEq

/-- `LdapExtendedRequest`. -/
structure LdapExtendedRequest where
  name : RString
  value : Option RString
deriving DecidableEq

/-- `LdapExtendedResponse`. -/
structure LdapExtendedResponse where
  res : LdapResult
  name : Option RString
  value : Option RString
deriving DecidableEq

/-- `LdapOp`: the closed operation union of `proto.rs`. -/
inductive LdapOp where
  | SimpleBind (v : LdapSimpleBind)
  | BindResponse (v : LdapBindResponse)
  | UnbindRequest
  | ExtendedRequest (v : LdapExtendedRequest)
  | ExtendedResponse (v : LdapExtendedResponse)
deriving DecidableEq

/-- `LdapMsg`. `msgid` is a Rust `i32`; `ctrl` is `Vec<()>`. -/
structure LdapMsg where
  msgid : Int
  op : LdapOp
  ctrl : List Unit
deriving DecidableEq

/-- `TryFrom<Vec<StructureTag>> for LdapSimpleBind`: pops the three elements
(in reverse), checks version `3`, universal OCTET STRING DN, context-tag-0
primitive password. -/
def LdapSimpleBind.try_from (value : List StructureTag) : PRes LdapSimpleBind :=
  (if value.length = 3 then
    let choice := (listPop value).1
    let v1 := (listPop value).2
    let dn := (listPop v1).1
    let v := (listPop (listPop v1).2).1
    (.ok (v, dn, choice) : PRes (Option StructureTag × Option StructureTag × Option StructureTag))
  else .err).bind fun vdc =>
  (optRes (((vdc.1.bind (fun t => t.match_class .Universal)).bind
      (fun t => t.match_id 2)).bind
      (fun t => t.expect_primitive))).bind fun vbytes =>
  (ber_integer_to_i64 vbytes).bind fun vi =>
  if vi ≠ 3 then .err else
  (optRes ((((vdc.2.1.bind (fun t => t.match_class .Universal)).bind
      (fun t => t.match_id 4)).bind
      (fun t => t.expect_primitive)).bind from_utf8)).bind fun dns =>
  (optRes ((((vdc.2.2.bind (fun t => t.match_class .Context)).bind
      (fun t => t.match_id 0)).bind
      (fun t => t.expect_primitive)).bind from_utf8)).bind fun pws =>
  .ok { dn := dns, pw := pws }

/-- `LdapResult::try_from_tag`: reverse, pop the three mandatory fields
(enumerated code — only `Success` decodes —, matched DN, message), partition
the rest on tag id 3 (referrals, discarded) and hand back the others. -/
def LdapResult.try_from_tag (value : List StructureTag) :
    PRes (LdapResult × List StructureTag) :=
  let v1 := value.reverse
  let t1 := (listPop v1).1
  let r1 := (listPop v1).2
  ((optRes (((t1.bind (fun t => t.match_class .Universal)).bind
      (fun t => t.match_id 10)).bind
      (fun t => t.expect_primitive))).bind ber_integer_to_i64).bind fun ci =>
  (LdapResultCode.try_from ci).bind fun code =>
  let t2 := (listPop r1).1
  let r2 := (listPop r1).2
  (optRes ((((t2.bind (fun t => t.match_class .Universal)).bind
      (fun t => t.match_id 4)).bind
      (fun t => t.expect_primitive)).bind from_utf8)).bind fun matcheddn =>
  let t3 := (listPop r2).1
  let r3 := (listPop r2).2
  (optRes ((((t3.bind (fun t => t.match_class .Universal)).bind
      (fun t => t.match_id 4)).bind
      (fun t => t.expect_primitive)).bind from_utf8)).bind fun message =>
  let other := r3.filter (fun t => ¬ t.id = 3)
  .ok ({ code := code, matcheddn := matcheddn, message := message,
         referral := [] }, other)

/-- `TryFrom<Vec<StructureTag>> for LdapBindResponse`: the result block;
remaining tags are ignored and `saslcreds` is always `None`. -/
def LdapBindResponse.try_from (value : List StructureTag) : PRes LdapBindResponse :=
  (LdapResult.try_from_tag value).bind fun rr =>
  .ok { res := rr.1, saslcreds := none }

/-- `TryFrom<Vec<StructureTag>> for LdapExtendedRequest`: mandatory
context-tag-0 name, optional context-tag-1 value. -/
def LdapExtendedRequest.try_from (value : List StructureTag) : PRes LdapExtendedRequest :=
  let v1 := value.reverse
  let t1 := (listPop v1).1
  let r1 := (listPop v1).2
  (optRes ((((t1.bind (fun t => t.match_class .Context)).bind
      (fun t => t.match_id 0)).bind
      (fun t => t.expect_primitive)).bind from_utf8)).bind fun name =>
  let t2 := (listPop r1).1
  let value2 := (((t2.bind (fun t => t.match_class .Context)).bind
      (fun t => t.match_id 1)).bind
      (fun t => t.expect_primitive)).bind from_utf8
  .ok { name := name, value := value2 }

/-- The `for_each` scan of `LdapExtendedResponse::try_from` over the remaining
tags: `(10, Context)` sets the name, `(11, Context)` sets the value, anything
else is ignored (later matches overwrite earlier ones). -/
def scanNV : List StructureTag → Option RString → Option RString →
    Option RString × Option RString
  | [], n, v => (n, v)
  | t :: rest, n, v =>
    if t.id = 10 ∧ t.cls = .Context then
      scanNV rest (t.expect_primitive.bind from_utf8) v
    else if t.id = 11 ∧ t.cls = .Context then
      scanNV rest n (t.expect_primitive.bind from_utf8)
    else
      scanNV rest n v

/-- `TryFrom<Vec<StructureTag>> for LdapExtendedResponse`. -/
def LdapExtendedResponse.try_from (value : List StructureTag) : PRes LdapExtendedResponse :=
  (LdapResult.try_from_tag value).bind fun rr =>
  let nv := scanNV rr.2 none none
  .ok { res := rr.1, name := nv.1, value := nv.2 }

/-- `TryFrom<StructureTag> for LdapOp`: class must be `Application`, then the
`(id, payload)` pairs `(0, C)`, `(1, C)`, `(2, _)`, `(23, C)`, `(24, C)` are
dispatched; every other pair is `Err(())` (the code also prints a diagnostic
there, a side effect with no bearing on the returned value). -/
def LdapOp.try_from (value : StructureTag) : PRes LdapOp :=
  if value.cls ≠ .Application then .err
  else
    match value with
    | .cons _ 0 inner => (LdapSimpleBind.try_from inner).bind fun v => .ok (.SimpleBind v)
    | .cons _ 1 inner => (LdapBindResponse.try_from inner).bind fun v => .ok (.BindResponse v)
    | .prim _ 2 _ => .ok .UnbindRequest
    | .cons _ 2 _ => .ok .UnbindRequest
    | .cons _ 23 inner => (LdapExtendedRequest.try_from inner).bind fun v => .ok (.ExtendedRequest v)
    | .cons _ 24 inner => (LdapExtendedResponse.try_from inner).bind fun v => .ok (.ExtendedResponse v)
    | _ => .err

/-- The envelope child-count dispatch of `TryFrom<StructureTag> for LdapMsg`:
2 children → no controls slot, 3 children → last child is the controls slot,
anything else → `Err(())`.  (The Rust `match seq.len()` destructures by
popping in reverse order.) -/
def envelopeFields (seq : List StructureTag) :
    PRes (Option StructureTag × Option StructureTag × Option StructureTag) :=
  if seq.length = 2 then
    .ok ((listPop (listPop seq).2).1, (listPop seq).1, none)
  else if seq.length = 3 then
    .ok ((listPop (listPop (listPop seq).2).2).1,
         (listPop (listPop seq).2).1,
         (listPop seq).1)
  else .err

/-- `TryFrom<StructureTag> for LdapMsg`: match tag id 16 (SEQUENCE, class not
inspected), split the children, decode the message id (BER integer narrowed
with `as i32`), dispatch the operation, and produce an always-empty controls
list (a context-tag-0 third child is recognized, its content discarded). -/
def LdapMsg.try_from (value : StructureTag) : PRes LdapMsg :=
  (optRes ((value.match_id 16).bind (fun t => t.expect_constructed))).bind fun seq =>
  (envelopeFields seq).bind fun fields =>
  ((optRes (((fields.1.bind (fun t => t.match_class .Universal)).bind
      (fun t => t.match_id 2)).bind
      (fun t => t.expect_primitive))).bind ber_integer_to_i64).bind fun i =>
  (optRes fields.2.1).bind fun opTag =>
  (LdapOp.try_from opTag).bind fun op =>
  let ctrl := ((((fields.2.2.bind (fun t => t.match_class .Context)).bind
      (fun t => t.match_id 0)).map
      (fun _ => ([] : List Unit))).getD [])
  .ok { msgid := i64_as_i32 i, op := op, ctrl := ctrl }

/-- Modelled from the spec: the external tag-tree library (`lber`) integer
serializer, which the spec pins down as "the minimal big-endian
two's-complement representation" (§4.1); `proto.rs` itself never builds the
bytes.  `berLen v` is the least byte count whose signed range contains `v`
(capped at 8 for `i64`). -/
def berLen (v : Int) : Nat :=
  if -(2 ^ 7) ≤ v ∧ v < 2 ^ 7 then 1
  else if -(2 ^ 15) ≤ v ∧ v < 2 ^ 15 then 2
  else if -(2 ^ 23) ≤ v ∧ v < 2 ^ 23 then 3
  else if -(2 ^ 31) ≤ v ∧ v < 2 ^ 31 then 4
  else if -(2 ^ 39) ≤ v ∧ v < 2 ^ 39 then 5
  else if -(2 ^ 47) ≤ v ∧ v < 2 ^ 47 then 6
  else if -(2 ^ 55) ≤ v ∧ v < 2 ^ 55 then 7
  else 8

/-- The `k` big-endian base-256 digits of `n`. -/
def natToBEBytes : Nat → Nat → List Nat
  | _, 0 => []
  | n, k + 1 => natToBEBytes (n / 256) k ++ [n % 256]

/-- Modelled from the spec: minimal big-endian two's-complement encoding of an
integer, the serialization the external tag-tree library gives a BER
INTEGER/ENUMERATED payload (§4.1, §6). -/
def encodeInteger (v : Int) : List Nat :=
  natToBEBytes (v % ((2 : Int) ^ (8 * berLen v))).toNat (berLen v)

/-- `From<LdapSimpleBind> for Vec<Tag>` (after `into_structure`): version 3,
universal OCTET STRING DN, context-tag-0 password. -/
def LdapSimpleBind.to_tags (v : LdapSimpleBind) : List StructureTag :=
  [ .prim .Universal 2 (encodeInteger 3),
    .prim .Universal 4 v.dn,
    .prim .Context 0 v.pw ]

/-- `LdapResult::into_tag_iter` (collected): enumerated code, matched DN,
message, and the referral slot — `unimplemented!()` (= panic) when the
referral list is non-empty, an empty slot otherwise. -/
def LdapResult.into_tag_iter (r : LdapResult) : PRes (List (Option StructureTag)) :=
  if r.referral.length > 0 then .panic
  else
    .ok [ some (.prim .Universal 10 (encodeInteger r.code.toI64)),
          some (.prim .Universal 4 r.matcheddn),
          some (.prim .Universal 4 r.message),
          none ]

/-- `From<LdapBindResponse> for Vec<Tag>`: result block then the optional
SASL credentials as a universal OCTET STRING; empty slots filtered away. -/
def LdapBindResponse.to_tags (v : LdapBindResponse) : PRes (List StructureTag) :=
  (v.res.into_tag_iter).bind fun l =>
  .ok ((l ++ [v.saslcreds.map (fun sc => StructureTag.prim .Universal 4 sc)]).filterMap
    (fun x => x))

/-- `From<LdapExtendedRequest> for Vec<Tag>`: context-tag-0 name, optional
context-tag-1 value. -/
def LdapExtendedRequest.to_tags (v : LdapExtendedRequest) : List StructureTag :=
  StructureTag.prim .Context 0 v.name ::
    (match v.value with
     | some x => [.prim .Context 1 x]
     | none => [])

/-- `From<LdapExtendedResponse> for Vec<Tag>`: result block then optional
context tags 10 and 11. -/
def LdapExtendedResponse.to_tags (v : LdapExtendedResponse) : PRes (List StructureTag) :=
  (v.res.into_tag_iter).bind fun l =>
  .ok ((l ++ [v.name.map (fun x => StructureTag.prim .Context 10 x),
              v.value.map (fun x => StructureTag.prim .Context 11 x)]).filterMap
    (fun x => x))

/-- `From<LdapOp> for Tag` (after `into_structure`): application-class nodes
with the fixed tag numbers 0, 1, 2 (NULL, empty payload), 23, 24. -/
def LdapOp.to_tag : LdapOp → PRes StructureTag
  | .SimpleBind lsb => .ok (.cons .Application 0 lsb.to_tags)
  | .BindResponse lbr => (lbr.to_tags).bind fun ts => .ok (.cons .Application 1 ts)
  | .UnbindRequest => .ok (.prim .Application 2 [])
  | .ExtendedRequest ler => .ok (.cons .Application 23 ler.to_tags)
  | .ExtendedResponse ler => (ler.to_tags).bind fun ts => .ok (.cons .Application 24 ts)

/-- `From<LdapMsg> for StructureTag`: universal SEQUENCE of the message id
(`msgid as i64` is value-preserving), the operation and the controls slot —
`unimplemented!()` (= panic) when the controls list is non-empty, no third
child otherwise. -/
def LdapMsg.to_structuretag (m : LdapMsg) : PRes StructureTag :=
  (m.op.to_tag).bind fun opTag =>
  (if m.ctrl.length > 0 then (.panic : PRes (Option StructureTag)) else .ok none).bind
    fun ctrlTag =>
  .ok (.cons .Universal 16
    (([some (.prim .Universal 2 (encodeInteger m.msgid)), some opTag,
       ctrlTag]).filterMap (fun x => x)))

theorem PRes.ok_ne_panic {α : Type} (a : α) : (PRes.ok a : PRes α) ≠ PRes.panic :=
  fun h => nomatch h

theorem PRes.err_ne_panic {α : Type} : (PRes.err : PRes α) ≠ PRes.panic :=
  fun h => nomatch h

theorem PRes.bind_ne_panic {α β : Type} {a : PRes α} {f : α → PRes β}
    (h1 : a ≠ PRes.panic) (h2 : ∀ x, f x ≠ PRes.panic) :
    a.bind f ≠ PRes.panic := by
  cases a with
  | ok x => exact h2 x
  | err => exact PRes.err_ne_panic
  | panic => exact absurd rfl h1

theorem optRes_ne_panic {α : Type} (o : Option α) : optRes o ≠ PRes.panic := by
  cases o <;> simp [optRes]

/-- The index `base + i` stays in bounds, so the write loop never panics. -/
theorem arrWriteLoop_ne_panic (base : Nat) (bv : List Nat) :
    ∀ (i : Nat) (raw : List Nat), base + i + bv.length ≤ raw.length →
    arrWriteLoop base bv i raw ≠ PRes.panic := by
  induction bv with
  | nil => intro i raw _; exact PRes.ok_ne_panic raw
  | cons b rest ih =>
    intro i raw h
    simp only [List.length_cons] at h
    simp only [arrWriteLoop]
    rw [if_pos (by omega)]
    apply ih
    simp only [List.length_set]
    omega

theorem ber_integer_to_i64_ne_panic (bv : List Nat) :
    ber_integer_to_i64 bv ≠ PRes.panic := by
  unfold ber_integer_to_i64
  split
  · exact PRes.err_ne_panic
  · rename_i h
    apply PRes.bind_ne_panic
    · apply arrWriteLoop_ne_panic
      simp only [List.length_replicate]
      omega
    · intro x
      exact PRes.ok_ne_panic _

theorem resultCode_decode_ne_panic (i : Int) :
    LdapResultCode.try_from i ≠ PRes.panic := by
  unfold LdapResultCode.try_from
  split
  · exact PRes.ok_ne_panic _
  · exact PRes.err_ne_panic

theorem simpleBind_decode_ne_panic (v : List StructureTag) :
    LdapSimpleBind.try_from v ≠ PRes.panic := by
  unfold LdapSimpleBind.try_from
  apply PRes.bind_ne_panic
  · split
    · exact PRes.ok_ne_panic _
    · exact PRes.err_ne_panic
  · intro vdc
    apply PRes.bind_ne_panic (optRes_ne_panic _)
    intro vb
    apply PRes.bind_ne_panic (ber_integer_to_i64_ne_panic vb)
    intro vi
    split
    · exact PRes.err_ne_panic
    · apply PRes.bind_ne_panic (optRes_ne_panic _)
      intro dns
      apply PRes.bind_ne_panic (optRes_ne_panic _)
      intro pws
      exact PRes.ok_ne_panic _

theorem resultBlock_decode_ne_panic (v : List StructureTag) :
    LdapResult.try_from_tag v ≠ PRes.panic := by
  unfold LdapResult.try_from_tag
  apply PRes.bind_ne_panic
  · exact PRes.bind_ne_panic (optRes_ne_panic _) (fun bv => ber_integer_to_i64_ne_panic bv)
  · intro ci
    apply PRes.bind_ne_panic (resultCode_decode_ne_panic ci)
    intro code
    apply PRes.bind_ne_panic (optRes_ne_panic _)
    intro dn
    apply PRes.bind_ne_panic (optRes_ne_panic _)
    intro msg
    exact PRes.ok_ne_panic _

theorem bindResponse_decode_ne_panic (v : List StructureTag) :
    LdapBindResponse.try_from v ≠ PRes.panic := by
  unfold LdapBindResponse.try_from
  apply PRes.bind_ne_panic (resultBlock_decode_ne_panic v)
  intro rr
  exact PRes.ok_ne_panic _

theorem extendedRequest_decode_ne_panic (v : List StructureTag) :
    LdapExtendedRequest.try_from v ≠ PRes.panic := by
  unfold LdapExtendedRequest.try_from
  apply PRes.bind_ne_panic (optRes_ne_panic _)
  intro name
  exact PRes.ok_ne_panic _

theorem extendedResponse_decode_ne_panic (v : List StructureTag) :
    LdapExtendedResponse.try_from v ≠ PRes.panic := by
  unfold LdapExtendedResponse.try_from
  apply PRes.bind_ne_panic (resultBlock_decode_ne_panic v)
  intro rr
  exact PRes.ok_ne_panic _

theorem ldapOp_decode_ne_panic (t : StructureTag) :
    LdapOp.try_from t ≠ PRes.panic := by
  unfold LdapOp.try_from
  split
  · exact PRes.err_ne_panic
  · split
    · exact PRes.bind_ne_panic (simpleBind_decode_ne_panic _)
        (fun v => PRes.ok_ne_panic _)
    · exact PRes.bind_ne_panic (bindResponse_decode_ne_panic _)
        (fun v => PRes.ok_ne_panic _)
    · exact PRes.ok_ne_panic _
    · exact PRes.ok_ne_panic _
    · exact PRes.bind_ne_panic (extendedRequest_decode_ne_panic _)
        (fun v => PRes.ok_ne_panic _)
    · exact PRes.bind_ne_panic (extendedResponse_decode_ne_panic _)
        (fun v => PRes.ok_ne_panic _)
    · exact PRes.err_ne_panic

theorem envelopeFields_ne_panic (seq : List StructureTag) :
    envelopeFields seq ≠ PRes.panic := by
  unfold envelopeFields
  split
  · exact PRes.ok_ne_panic _
  · split
    · exact PRes.ok_ne_panic _
    · exact PRes.err_ne_panic

theorem ldapMsg_decode_ne_panic (t : StructureTag) :
    LdapMsg.try_from t ≠ PRes.panic := by
  unfold LdapMsg.try_from
  apply PRes.bind_ne_panic (optRes_ne_panic _)
  intro seq
  apply PRes.bind_ne_panic (envelopeFields_ne_panic seq)
  intro fields
  apply PRes.bind_ne_panic
    (PRes.bind_ne_panic (optRes_ne_panic _) (fun bv => ber_integer_to_i64_ne_panic bv))
  intro i
  apply PRes.bind_ne_panic (optRes_ne_panic _)
  intro opTag
  apply PRes.bind_ne_panic (ldapOp_decode_ne_panic opTag)
  intro op
  exact PRes.ok_ne_panic _

/-- The numeric value of a big-endian byte string (bytes reduced mod 256,
as `i64::from_be_bytes` sees them). -/
def beNat (bv : List Nat) : Nat := bv.foldl (fun a b => a * 256 + b % 256) 0

theorem beNat_zero_prefix (bv : List Nat) :
    ∀ k, (List.replicate k 0 ++ bv).foldl (fun a b => a * 256 + b % 256) 0 = beNat bv := by
  intro k
  induction k with
  | zero => rfl
  | succ k ih => simpa [List.replicate_succ, List.foldl_cons] using ih

/-- On inputs of at most 8 bytes the decoder right-aligns into a zeroed
buffer: the result is the plain big-endian value, sign-flipped only when the
full 64-bit range is exceeded (zero-padding, no sign extension). -/
theorem ber_integer_small (bv : List Nat) (h : bv.length ≤ 8) :
    ber_integer_to_i64 bv =
      .ok (i64_from_be_bytes (List.replicate (8 - bv.length) 0 ++ bv)) := by
  match bv with
  | [] => rfl
  | [a] => rfl
  | [a, b] => rfl
  | [a, b, c] => rfl
  | [a, b, c, d] => rfl
  | [a, b, c, d, e] => rfl
  | [a, b, c, d, e, f] => rfl
  | [a, b, c, d, e, f, g] => rfl
  | [a, b, c, d, e, f, g, h8] => rfl
  | a :: b :: c :: d :: e :: f :: g :: h8 :: i :: rest =>
    exact absurd h (by simp only [List.length_cons]; omega)

theorem ber_integer_eq (bv : List Nat) (h : bv.length ≤ 8) :
    ber_integer_to_i64 bv =
      .ok (if beNat bv < 2 ^ 63 then (beNat bv : Int)
           else (beNat bv : Int) - (2 : Int) ^ 64) := by
  rw [ber_integer_small bv h]
  simp only [i64_from_be_bytes, beNat_zero_prefix]

theorem natToBEBytes_length : ∀ (k n : Nat), (natToBEBytes n k).length = k := by
  intro k
  induction k with
  | zero => intro n; rfl
  | succ k ih => intro n; simp [natToBEBytes, ih]

theorem beNat_natToBEBytes : ∀ (k n : Nat), n < 256 ^ k →
    beNat (natToBEBytes n k) = n := by
  intro k
  induction k with
  | zero =>
    intro n h
    simp only [pow_zero, Nat.lt_one_iff] at h
    simp [natToBEBytes, beNat, h]
  | succ k ih =>
    intro n h
    have hd : n / 256 < 256 ^ k := by
      rw [Nat.div_lt_iff_lt_mul (by norm_num)]
      calc n < 256 ^ (k + 1) := h
        _ = 256 ^ k * 256 := by ring
    simp only [natToBEBytes, beNat, List.foldl_append, List.foldl_cons, List.foldl_nil]
    have := ih (n / 256) hd
    simp only [beNat] at this
    rw [this]
    omega

theorem berLen_bound (v : Int) (h0 : 0 ≤ v) (h1 : v < 2 ^ 31) :
    berLen v ≤ 4 ∧ v < (2 : Int) ^ (8 * berLen v) := by
  unfold berLen
  split_ifs <;> norm_num <;> omega

/-- Decoding the spec-mandated minimal two's-complement encoding of a
non-negative 31-bit value recovers the value (zero-padding is harmless there,
since the sign bit never reaches the top of the 64-bit buffer). -/
theorem ber_decode_encodeInteger (v : Int) (h0 : 0 ≤ v) (h1 : v < 2 ^ 31) :
    ber_integer_to_i64 (encodeInteger v) = .ok v := by
  obtain ⟨hk4, hvk⟩ := berLen_bound v h0 h1
  set k := berLen v with hk
  have hmod : v % (2 : Int) ^ (8 * k) = v := Int.emod_eq_of_lt h0 hvk
  have hlen : (natToBEBytes (v % ((2 : Int) ^ (8 * k))).toNat k).length = k :=
    natToBEBytes_length k _
  rw [encodeInteger, ← hk, ber_integer_eq _ (by rw [hlen]; omega)]
  have hlt : (v % ((2 : Int) ^ (8 * k))).toNat < 256 ^ k := by
    rw [hmod]
    have : ((2 : Int) ^ (8 * k)) = ((256 ^ k : Nat) : Int) := by
      push_cast
      rw [pow_mul]
      norm_num
    omega
  rw [beNat_natToBEBytes k _ hlt]
  rw [hmod]
  have h63 : v.toNat < 2 ^ 63 := by omega
  rw [if_pos h63]
  congr 1
  omega

theorem listPop_one {α : Type} (a : α) : listPop [a] = (some a, []) := rfl

theorem listPop_two {α : Type} (a b : α) : listPop [a, b] = (some b, [a]) := rfl

theorem listPop_three {α : Type} (a b c : α) :
    listPop [a, b, c] = (some c, [a, b]) := rfl

theorem listPop_four {α : Type} (a b c d : α) :
    listPop [a, b, c, d] = (some d, [a, b, c]) := rfl

theorem listPop_five {α : Type} (a b c d e : α) :
    listPop [a, b, c, d, e] = (some e, [a, b, c, d]) := rfl

theorem i64_as_i32_id (v : Int) (h0 : -(2 ^ 31) ≤ v) (h1 : v < 2 ^ 31) :
    i64_as_i32 v = v := by
  unfold i64_as_i32
  omega

theorem from_utf8_valid {s : List Nat} (h : utf8Valid s = true) :
    from_utf8 s = some s := by
  simp [from_utf8, h]

theorem encodeInteger_three : encodeInteger 3 = [3] := by decide

theorem encodeInteger_zero : encodeInteger 0 = [0] := by decide

theorem ber_concrete_three : ber_integer_to_i64 [3] = .ok 3 := by decide

theorem ber_concrete_zero : ber_integer_to_i64 [0] = .ok 0 := by decide

/-- Restriction on a result block under which encoding then decoding it is
lossless: code `Success` (the only one the decoder accepts), no referrals
(the encoder aborts otherwise), UTF-8 texts. -/
def encodableResult (r : LdapResult) : Prop :=
  r.code = .Success ∧ r.referral = [] ∧
    utf8Valid r.matcheddn = true ∧ utf8Valid r.message = true

/-- Restriction on an operation under which encoding then decoding it is
lossless. -/
def encodableOp : LdapOp → Prop
  | .SimpleBind b => utf8Valid b.dn = true ∧ utf8Valid b.pw = true
  | .BindResponse b => encodableResult b.res ∧ b.saslcreds = none
  | .UnbindRequest => True
  | .ExtendedRequest e => utf8Valid e.name = true ∧
      (∀ x, e.value = some x → utf8Valid x = true)
  | .ExtendedResponse e => encodableResult e.res ∧
      (∀ x, e.name = some x → utf8Valid x = true) ∧
      (∀ x, e.value = some x → utf8Valid x = true)

theorem simplebind_roundtrip (b : LdapSimpleBind)
    (hdn : utf8Valid b.dn = true) (hpw : utf8Valid b.pw = true) :
    LdapSimpleBind.try_from b.to_tags = .ok b := by
  obtain ⟨dn, pw⟩ := b
  simp only [LdapSimpleBind.to_tags] at *
  unfold LdapSimpleBind.try_from
  simp [listPop_three, listPop_two, listPop_one, listPop,
        StructureTag.match_class, StructureTag.match_id,
        StructureTag.expect_primitive, StructureTag.cls, StructureTag.id,
        optRes, PRes.bind, Option.bind, encodeInteger_three,
        ber_concrete_three, from_utf8_valid hdn, from_utf8_valid hpw]

/-- Encoding then decoding an operation is lossless on encodable values. -/
theorem op_roundtrip (op : LdapOp) (h : encodableOp op) :
    (op.to_tag).bind LdapOp.try_from = .ok op := by
  cases op with
  | SimpleBind b =>
    obtain ⟨hdn, hpw⟩ := h
    simp only [LdapOp.to_tag, PRes.bind, LdapOp.try_from, StructureTag.cls]
    simp [simplebind_roundtrip b hdn hpw, PRes.bind]
  | BindResponse b =>
    obtain ⟨⟨hc, hr, hdn, hmsg⟩, hs⟩ := h
    obtain ⟨⟨code, mdn, msg, ref⟩, sasl⟩ := b
    simp only at hc hr hdn hmsg hs
    subst hc hr hs
    simp only [LdapOp.to_tag, LdapBindResponse.to_tags, LdapResult.into_tag_iter,
      List.length_nil, gt_iff_lt, Nat.lt_irrefl, if_false, PRes.bind,
      LdapResultCode.toI64, encodeInteger_zero, Option.map_none,
      List.filterMap, LdapOp.try_from, StructureTag.cls]
    simp only [LdapOp.try_from, StructureTag.cls, ne_eq, not_true_eq_false,
      if_false, reduceCtorEq]
    unfold LdapBindResponse.try_from LdapResult.try_from_tag
    simp [listPop_three, listPop_two, listPop_one, listPop,
      StructureTag.match_class, StructureTag.match_id,
      StructureTag.expect_primitive, StructureTag.cls, StructureTag.id,
      optRes, PRes.bind, Option.bind, ber_concrete_zero,
      LdapResultCode.try_from, from_utf8_valid hdn, from_utf8_valid hmsg]
  | UnbindRequest =>
    simp [LdapOp.to_tag, PRes.bind, LdapOp.try_from, StructureTag.cls]
  | ExtendedRequest e =>
    obtain ⟨hname, hval⟩ := h
    obtain ⟨name, value⟩ := e
    simp only at hname hval
    cases value with
    | none =>
      simp only [LdapOp.to_tag, LdapExtendedRequest.to_tags, PRes.bind,
        LdapOp.try_from, StructureTag.cls]
      unfold LdapExtendedRequest.try_from
      simp [listPop_one, listPop, StructureTag.match_class,
        StructureTag.match_id, StructureTag.expect_primitive,
        StructureTag.cls, StructureTag.id, optRes, PRes.bind, Option.bind,
        from_utf8_valid hname]
    | some x =>
      have hx : utf8Valid x = true := hval x rfl
      simp only [LdapOp.to_tag, LdapExtendedRequest.to_tags, PRes.bind,
        LdapOp.try_from, StructureTag.cls]
      unfold LdapExtendedRequest.try_from
      simp [listPop_two, listPop_one, listPop, StructureTag.match_class,
        StructureTag.match_id, StructureTag.expect_primitive,
        StructureTag.cls, StructureTag.id, optRes, PRes.bind, Option.bind,
        from_utf8_valid hname, from_utf8_valid hx]
  | ExtendedResponse e =>
    obtain ⟨⟨hc, hr, hdn, hmsg⟩, hname, hval⟩ := h
    obtain ⟨⟨code, mdn, msg, ref⟩, name, value⟩ := e
    simp only at hc hr hdn hmsg hname hval
    subst hc hr
    cases name with
    | none =>
      cases value with
      | none =>
        simp only [LdapOp.to_tag, LdapExtendedResponse.to_tags,
          LdapResult.into_tag_iter, List.length_nil, gt_iff_lt, Nat.lt_irrefl,
          if_false, PRes.bind, LdapResultCode.toI64, encodeInteger_zero,
          Option.map_none, List.filterMap, LdapOp.try_from, StructureTag.cls]
        unfold LdapExtendedResponse.try_from LdapResult.try_from_tag
        simp [listPop_three, listPop_two, listPop_one, listPop, scanNV,
          StructureTag.match_class, StructureTag.match_id,
          StructureTag.expect_primitive, StructureTag.cls, StructureTag.id,
          optRes, PRes.bind, Option.bind, ber_concrete_zero,
          LdapResultCode.try_from, from_utf8_valid hdn, from_utf8_valid hmsg]
      | some xv =>
        have hxv : utf8Valid xv = true := hval xv rfl
        simp only [LdapOp.to_tag, LdapExtendedResponse.to_tags,
          LdapResult.into_tag_iter, List.length_nil, gt_iff_lt, Nat.lt_irrefl,
          if_false, PRes.bind, LdapResultCode.toI64, encodeInteger_zero,
          Option.map_none, Option.map_some, List.filterMap, LdapOp.try_from,
          StructureTag.cls]
        unfold LdapExtendedResponse.try_from LdapResult.try_from_tag
        simp [listPop_four, listPop_three, listPop_two, listPop_one, listPop,
          scanNV, StructureTag.match_class, StructureTag.match_id,
          StructureTag.expect_primitive, StructureTag.cls, StructureTag.id,
          optRes, PRes.bind, Option.bind, ber_concrete_zero,
          LdapResultCode.try_from, from_utf8_valid hdn, from_utf8_valid hmsg,
          from_utf8_valid hxv]
    | some xn =>
      have hxn : utf8Valid xn = true := hname xn rfl
      cases value with
      | none =>
        simp only [LdapOp.to_tag, LdapExtendedResponse.to_tags,
          LdapResult.into_tag_iter, List.length_nil, gt_iff_lt, Nat.lt_irrefl,
          if_false, PRes.bind, LdapResultCode.toI64, encodeInteger_zero,
          Option.map_none, Option.map_some, List.filterMap, LdapOp.try_from,
          StructureTag.cls]
        unfold LdapExtendedResponse.try_from LdapResult.try_from_tag
        simp [listPop_four, listPop_three, listPop_two, listPop_one, listPop,
          scanNV, StructureTag.match_class, StructureTag.match_id,
          StructureTag.expect_primitive, StructureTag.cls, StructureTag.id,
          optRes, PRes.bind, Option.bind, ber_concrete_zero,
          LdapResultCode.try_from, from_utf8_valid hdn, from_utf8_valid hmsg,
          from_utf8_valid hxn]
      | some xv =>
        have hxn2 : utf8Valid xn = true := hxn
        have hxv : utf8Valid xv = true := hval xv rfl
        simp only [LdapOp.to_tag, LdapExtendedResponse.to_tags,
          LdapResult.into_tag_iter, List.length_nil, gt_iff_lt, Nat.lt_irrefl,
          if_false, PRes.bind, LdapResultCode.toI64, encodeInteger_zero,
          Option.map_none, Option.map_some, List.filterMap, LdapOp.try_from,
          StructureTag.cls]
        unfold LdapExtendedResponse.try_from LdapResult.try_from_tag
        simp [listPop_five, listPop_four, listPop_three, listPop_two,
          listPop_one, listPop, scanNV, StructureTag.match_class,
          StructureTag.match_id, StructureTag.expect_primitive,
          StructureTag.cls, StructureTag.id, optRes, PRes.bind, Option.bind,
          ber_concrete_zero, LdapResultCode.try_from, from_utf8_valid hdn,
          from_utf8_valid hmsg, from_utf8_valid hxn, from_utf8_valid hxv]

/-- Encoding then decoding a whole message is lossless when the message id is
a non-negative `i32`, the controls list is empty and the operation is
encodable. -/
theorem msg_roundtrip (m : LdapMsg) (h0 : 0 ≤ m.msgid) (h1 : m.msgid < 2 ^ 31)
    (hc : m.ctrl = []) (hop : encodableOp m.op) :
    (m.to_structuretag).bind LdapMsg.try_from = .ok m := by
  obtain ⟨msgid, op, ctrl⟩ := m
  simp only at h0 h1 hc hop
  subst hc
  have hrt := op_roundtrip op hop
  cases hopt : op.to_tag with
  | err => rw [hopt] at hrt; exact absurd hrt (by simp [PRes.bind])
  | panic => rw [hopt] at hrt; exact absurd hrt (by simp [PRes.bind])
  | ok opTag =>
    rw [hopt] at hrt
    simp only [PRes.bind] at hrt
    unfold LdapMsg.to_structuretag
    rw [hopt]
    simp only [PRes.bind, List.length_nil, gt_iff_lt, Nat.lt_irrefl, if_false,
      List.filterMap]
    unfold LdapMsg.try_from
    simp only [StructureTag.match_id, StructureTag.id, StructureTag.expect_constructed,
      optRes, Option.bind, PRes.bind, if_pos]
    unfold envelopeFields
    simp only [List.length_cons, List.length_nil, listPop_two, listPop_one, listPop,
      Nat.reduceAdd, if_pos]
    simp [StructureTag.match_class, StructureTag.match_id,
      StructureTag.expect_primitive, StructureTag.cls, StructureTag.id,
      optRes, PRes.bind, Option.bind, ber_decode_encodeInteger msgid h0 h1,
      hrt, i64_as_i32_id msgid (by omega) h1]

theorem optmap_ctrl (x : Option StructureTag) :
    (x.map (fun _ => ([] : List Unit))).getD [] = [] := by
  cases x <;> rfl

/-- Decoding a 2-child envelope: any class, tag 16, message id and operation
both decodable. -/
theorem envelope_two_decode (cls : TagClass) (mb : List Nat) (i : Int)
    (opT : StructureTag) (op : LdapOp)
    (hm : ber_integer_to_i64 mb = PRes.ok i)
    (ho : LdapOp.try_from opT = PRes.ok op) :
    LdapMsg.try_from (.cons cls 16 [.prim .Universal 2 mb, opT]) =
      PRes.ok { msgid := i64_as_i32 i, op := op, ctrl := [] } := by
  unfold LdapMsg.try_from
  simp only [StructureTag.match_id, StructureTag.id, StructureTag.expect_constructed,
    optRes, Option.bind, PRes.bind, if_pos]
  unfold envelopeFields
  simp only [List.length_cons, List.length_nil, listPop_two, listPop_one, listPop,
    Nat.reduceAdd, if_pos]
  simp [StructureTag.match_class, StructureTag.match_id,
    StructureTag.expect_primitive, StructureTag.cls, StructureTag.id,
    optRes, PRes.bind, Option.bind, hm, ho]

/-- Decoding a 3-child envelope: any class, tag 16, any third child at all —
the controls slot is discarded and the decoded controls list is empty. -/
theorem envelope_three_decode (cls : TagClass) (mb : List Nat) (i : Int)
    (opT : StructureTag) (op : LdapOp) (third : StructureTag)
    (hm : ber_integer_to_i64 mb = PRes.ok i)
    (ho : LdapOp.try_from opT = PRes.ok op) :
    LdapMsg.try_from (.cons cls 16 [.prim .Universal 2 mb, opT, third]) =
      PRes.ok { msgid := i64_as_i32 i, op := op, ctrl := [] } := by
  unfold LdapMsg.try_from
  simp only [StructureTag.match_id, StructureTag.id, StructureTag.expect_constructed,
    optRes, Option.bind, PRes.bind, if_pos]
  unfold envelopeFields
  simp only [List.length_cons, List.length_nil, listPop_three, listPop_two,
    listPop_one, listPop, Nat.reduceAdd, if_pos]
  simp [StructureTag.match_class, StructureTag.match_id,
    StructureTag.expect_primitive, StructureTag.cls, StructureTag.id,
    optRes, PRes.bind, Option.bind, hm, ho, optmap_ctrl]

/-- A computation completed with a value or with the returned unit error —
it did not abort the process. -/
def okOrErr {α : Type} (r : PRes α) : Prop :=
  (∃ a, r = PRes.ok a) ∨ r = PRes.err

theorem okOrErr_of_ne_panic {α : Type} {r : PRes α} (h : r ≠ PRes.panic) :
    okOrErr r := by
  cases r with
  | ok a => exact Or.inl ⟨a, rfl⟩
  | err => exact Or.inr rfl
  | panic => exact absurd rfl h

/-- C1: for every tagged-node tree (and every child list handed to an
operation decoder), the message decode entry point and each operation decoder
terminate and return either a decoded value or the unit error — never the
panic outcome (the only potentially panicking operation on the decode path,
the indexed buffer write inside `ber_integer_to_i64`, is always in bounds). -/
theorem claim_C1_decode_never_panics :
    ∀ (t : StructureTag) (l : List StructureTag),
      okOrErr (LdapMsg.try_from t) ∧
      okOrErr (LdapOp.try_from t) ∧
      okOrErr (LdapSimpleBind.try_from l) ∧
      okOrErr (LdapBindResponse.try_from l) ∧
      okOrErr (LdapExtendedRequest.try_from l) ∧
      okOrErr (LdapExtendedResponse.try_from l) :=
  fun t l =>
    ⟨okOrErr_of_ne_panic (ldapMsg_decode_ne_panic t),
     okOrErr_of_ne_panic (ldapOp_decode_ne_panic t),
     okOrErr_of_ne_panic (simpleBind_decode_ne_panic l),
     okOrErr_of_ne_panic (bindResponse_decode_ne_panic l),
     okOrErr_of_ne_panic (extendedRequest_decode_ne_panic l),
     okOrErr_of_ne_panic (extendedResponse_decode_ne_panic l)⟩

/-- C3: evaluation of the BER integer decoder at the claim's inputs.  The
single byte `0x80` decodes to `128`, not to the `-128` the claim (and RFC
4511/BER) requires: the decoder zero-pads instead of sign-extending.  The
9-byte input does fail as claimed. -/
theorem claim_C3_integer_decoder_zero_pads :
    ber_integer_to_i64 [0x80] = PRes.ok 128 ∧
    ber_integer_to_i64 [0x00] = PRes.ok 0 ∧
    ber_integer_to_i64 [0x7F] = PRes.ok 127 ∧
    ber_integer_to_i64 [0xFF] = PRes.ok 255 ∧
    ber_integer_to_i64 [0, 0, 0, 0, 0, 0, 0, 0, 0] = PRes.err := by
  refine ⟨by decide, by decide, by decide, by decide, by decide⟩

/-- C4: evaluation of result-code decoding.  Only `0` decodes (to `Success`);
every other value of the fixed RFC 4511 table — `1` (OperationsError), `2`
(ProtocolError), `49` (InvalidCredentials), `80` (Other) — is rejected with
the unit error instead of decoding to its variant, contradicting the claim's
full-table requirement (the claim's "never coerce to Success" half does
hold: a non-zero value is never accepted). -/
theorem claim_C4_resultcode_table_stub :
    LdapResultCode.try_from 0 = PRes.ok .Success ∧
    LdapResultCode.try_from 1 = PRes.err ∧
    LdapResultCode.try_from 2 = PRes.err ∧
    LdapResultCode.try_from 49 = PRes.err ∧
    LdapResultCode.try_from 80 = PRes.err ∧
    LdapResultCode.try_from 9 = PRes.err := by
  refine ⟨by decide, by decide, by decide, by decide, by decide, by decide⟩

/-- C5: encoding a message with a non-empty controls list, or a result block
with a non-empty referral list, hits `unimplemented!()` and aborts (the
`panic` outcome) instead of returning a `NotImplemented` error value as the
claim requires. -/
theorem claim_C5_encode_nonempty_aborts :
    LdapMsg.to_structuretag { msgid := 0, op := .UnbindRequest, ctrl := [()] } =
      PRes.panic ∧
    LdapResult.into_tag_iter
      { code := .Success, matcheddn := [], message := [], referral := [()] } =
      PRes.panic ∧
    (LdapMsg.to_structuretag
      { msgid := 0,
        op := LdapOp.BindResponse ⟨⟨.Success, [], [], [()]⟩, none⟩,
        ctrl := [] }) = PRes.panic :=
  ⟨rfl, rfl, rfl⟩

/-- C6: evaluation of operation decoding at unrecognized nodes.  Decoding an
Application-class node with tag 99 (or 98, or a primitive tag-0 node, or a
non-Application node) returns the bare unit error `Err(())`: the offending
tag number is not carried in the error value (the error is the same unit
value for every offending input), and the code reports the tag only through
a `println!` diagnostic — contradicting the claim's `UnknownOperation(tag)`
requirement. -/
theorem claim_C6_unknown_op_error_is_unit :
    LdapOp.try_from (.cons .Application 99 []) = PRes.err ∧
    LdapOp.try_from (.cons .Application 98 []) = PRes.err ∧
    LdapOp.try_from (.prim .Application 0 []) = PRes.err ∧
    LdapOp.try_from (.prim .Application 1 []) = PRes.err ∧
    LdapOp.try_from (.cons .Context 1 []) = PRes.err ∧
    LdapOp.try_from (.cons .Universal 2 []) = PRes.err ∧
    LdapOp.try_from (.cons .Application 2 []) = PRes.ok .UnbindRequest := by
  refine ⟨by decide, by decide, by decide, by decide, by decide, by decide, by decide⟩

/-- C2 (amended): encode-then-decode is the identity on messages with empty
controls whose `msgid` is non-negative and whose operation is encodable: any
embedded result code is `Success`, referral lists are empty, BindResponse
SASL credentials are absent (UTF-8 hypotheses only restate the Rust `String`
type invariant). -/
theorem claim_C2_roundtrip (m : LdapMsg) (h0 : 0 ≤ m.msgid)
    (h1 : m.msgid < 2 ^ 31) (hc : m.ctrl = []) (hop : encodableOp m.op) :
    (m.to_structuretag).bind LdapMsg.try_from = PRes.ok m :=
  msg_roundtrip m h0 h1 hc hop

/-- C2 (witness): the spec's scenario 1 — an anonymous simple bind wrapped
with message id 1 round-trips to itself. -/
theorem claim_C2_roundtrip_witness :
    ((LdapMsg.to_structuretag
        { msgid := 1, op := .SimpleBind { dn := [], pw := [] }, ctrl := [] }).bind
      LdapMsg.try_from) =
      PRes.ok { msgid := 1, op := .SimpleBind { dn := [], pw := [] }, ctrl := [] } :=
  claim_C2_roundtrip
    { msgid := 1, op := .SimpleBind { dn := [], pw := [] }, ctrl := [] }
    (by norm_num) (by norm_num) rfl ⟨rfl, rfl⟩

/-- C2 (counterexample): the round trip fails as universally stated — a
negative message id comes back as its zero-padded reading (`-1` becomes
`255`); a `BindResponse` with a non-`Success` code fails to decode; SASL
credentials are dropped; a non-empty referral list makes the encoder abort. -/
theorem claim_C2_counterexample :
    ((LdapMsg.to_structuretag { msgid := -1, op := .UnbindRequest, ctrl := [] }).bind
        LdapMsg.try_from ≠
      PRes.ok { msgid := -1, op := .UnbindRequest, ctrl := [] }) ∧
    ((LdapMsg.to_structuretag { msgid := -1, op := .UnbindRequest, ctrl := [] }).bind
        LdapMsg.try_from =
      PRes.ok { msgid := 255, op := .UnbindRequest, ctrl := [] }) ∧
    ((LdapMsg.to_structuretag
        ⟨5, LdapOp.BindResponse ⟨⟨.OperationsError, [], [], []⟩, none⟩, []⟩).bind
      LdapMsg.try_from = PRes.err) ∧
    ((LdapMsg.to_structuretag
        ⟨5, LdapOp.BindResponse ⟨⟨.Success, [], [], []⟩, some [97]⟩, []⟩).bind
      LdapMsg.try_from =
      PRes.ok ⟨5, LdapOp.BindResponse ⟨⟨.Success, [], [], []⟩, none⟩, []⟩) ∧
    ((LdapMsg.to_structuretag
        ⟨5, LdapOp.BindResponse ⟨⟨.Success, [], [], [()]⟩, none⟩, []⟩).bind
      LdapMsg.try_from = PRes.panic) := by
  refine ⟨by decide, by decide, by decide, by decide, by decide⟩

/-- C7: envelope dispatch — a 2-child envelope decodes with empty controls, a
3-child envelope whose third child is context-specific tag 0 decodes with
empty controls (content discarded), and every other child count fails with
the (unit) malformed-envelope error. -/
theorem claim_C7_envelope_dispatch :
    (∀ (mb : List Nat) (i : Int) (opT : StructureTag) (op : LdapOp)
        (third : StructureTag),
      ber_integer_to_i64 mb = PRes.ok i →
      LdapOp.try_from opT = PRes.ok op →
      (LdapMsg.try_from (.cons .Universal 16 [.prim .Universal 2 mb, opT]) =
        PRes.ok { msgid := i64_as_i32 i, op := op, ctrl := [] }) ∧
      (third.cls = .Context → third.id = 0 →
        LdapMsg.try_from (.cons .Universal 16 [.prim .Universal 2 mb, opT, third]) =
          PRes.ok { msgid := i64_as_i32 i, op := op, ctrl := [] })) ∧
    (∀ (cls : TagClass) (children : List StructureTag),
      children.length ≠ 2 → children.length ≠ 3 →
      LdapMsg.try_from (.cons cls 16 children) = PRes.err) := by
  constructor
  · intro mb i opT op third hm ho
    exact ⟨envelope_two_decode .Universal mb i opT op hm ho,
           fun _ _ => envelope_three_decode .Universal mb i opT op third hm ho⟩
  · intro cls children h2 h3
    unfold LdapMsg.try_from
    simp only [StructureTag.match_id, StructureTag.id, StructureTag.expect_constructed,
      optRes, Option.bind, PRes.bind, if_pos]
    unfold envelopeFields
    rw [if_neg h2, if_neg h3]

/-- C7 (witness): concrete instances — a 2-child envelope, a 3-child envelope
with a context-tag-0 third child, and envelopes with 1 and 4 children. -/
theorem claim_C7_envelope_dispatch_witness :
    (LdapMsg.try_from (.cons .Universal 16
        [.prim .Universal 2 [1], .prim .Application 2 []]) =
      PRes.ok { msgid := i64_as_i32 1, op := .UnbindRequest, ctrl := [] }) ∧
    (LdapMsg.try_from (.cons .Universal 16
        [.prim .Universal 2 [1], .prim .Application 2 [], .prim .Context 0 [5]]) =
      PRes.ok { msgid := i64_as_i32 1, op := .UnbindRequest, ctrl := [] }) ∧
    (LdapMsg.try_from (.cons .Universal 16 [.prim .Universal 2 [1]]) = PRes.err) ∧
    (LdapMsg.try_from (.cons .Universal 16
        [.prim .Universal 2 [1], .prim .Application 2 [], .prim .Context 0 [],
         .prim .Context 0 []]) = PRes.err) := by
  have h := claim_C7_envelope_dispatch
  refine ⟨?_, ?_, ?_, ?_⟩
  · exact (h.1 [1] 1 (.prim .Application 2 []) .UnbindRequest
      (.prim .Context 0 [5]) (by decide) (by decide)).1
  · exact (h.1 [1] 1 (.prim .Application 2 []) .UnbindRequest
      (.prim .Context 0 [5]) (by decide) (by decide)).2 rfl rfl
  · exact h.2 .Universal [.prim .Universal 2 [1]] (by decide) (by decide)
  · exact h.2 .Universal _ (by decide) (by decide)

/-- C8: when the decoded 64-bit message id lies outside the signed 32-bit
range, envelope decoding still succeeds and the stored id is the wrapping
32-bit truncation: it is congruent to the decoded value modulo `2^32` and
lies in `[-2^31, 2^31)`. -/
theorem claim_C8_msgid_truncates :
    ∀ (mb : List Nat) (i : Int),
      ber_integer_to_i64 mb = PRes.ok i →
      (i < -(2 ^ 31) ∨ 2 ^ 31 ≤ i) →
      (LdapMsg.try_from (.cons .Universal 16
          [.prim .Universal 2 mb, .prim .Application 2 []]) =
        PRes.ok { msgid := i64_as_i32 i, op := .UnbindRequest, ctrl := [] }) ∧
      i64_as_i32 i % 2 ^ 32 = i % 2 ^ 32 ∧
      -(2 ^ 31) ≤ i64_as_i32 i ∧ i64_as_i32 i < 2 ^ 31 := by
  intro mb i hm _
  refine ⟨envelope_two_decode .Universal mb i _ .UnbindRequest hm (by decide),
    ?_, ?_, ?_⟩ <;> (unfold i64_as_i32; omega)

/-- C8 (witness): the 5-byte encoding of `2^32` decodes out of the 32-bit
range and the message id wraps (to `0`). -/
theorem claim_C8_msgid_truncates_witness :
    (LdapMsg.try_from (.cons .Universal 16
        [.prim .Universal 2 [1, 0, 0, 0, 0], .prim .Application 2 []]) =
      PRes.ok { msgid := i64_as_i32 4294967296, op := .UnbindRequest, ctrl := [] }) ∧
    i64_as_i32 4294967296 % 2 ^ 32 = 4294967296 % 2 ^ 32 ∧
    -(2 ^ 31) ≤ i64_as_i32 4294967296 ∧ i64_as_i32 4294967296 < 2 ^ 31 :=
  claim_C8_msgid_truncates [1, 0, 0, 0, 0] 4294967296 (by decide) (by norm_num)

/-- C10: envelope recognition checks only tag number 16 and constructedness,
never the class — for every class (Application, Context, Private included)
a constructed tag-16 node with a well-formed 2- or 3-child body decodes
successfully. -/
theorem claim_C10_envelope_class_ignored :
    ∀ (cls : TagClass) (mb : List Nat) (i : Int) (opT : StructureTag)
      (op : LdapOp) (third : StructureTag),
      ber_integer_to_i64 mb = PRes.ok i →
      LdapOp.try_from opT = PRes.ok op →
      third.cls = .Context → third.id = 0 →
      (LdapMsg.try_from (.cons cls 16 [.prim .Universal 2 mb, opT]) =
        PRes.ok { msgid := i64_as_i32 i, op := op, ctrl := [] }) ∧
      (LdapMsg.try_from (.cons cls 16 [.prim .Universal 2 mb, opT, third]) =
        PRes.ok { msgid := i64_as_i32 i, op := op, ctrl := [] }) := by
  intro cls mb i opT op third hm ho _ _
  exact ⟨envelope_two_decode cls mb i opT op hm ho,
         envelope_three_decode cls mb i opT op third hm ho⟩

/-- C10 (witness): a Private-class and an Application-class envelope both
decode. -/
theorem claim_C10_envelope_class_ignored_witness :
    (LdapMsg.try_from (.cons .Private 16
        [.prim .Universal 2 [1], .prim .Application 2 []]) =
      PRes.ok { msgid := i64_as_i32 1, op := .UnbindRequest, ctrl := [] }) ∧
    (LdapMsg.try_from (.cons .Application 16
        [.prim .Universal 2 [1], .prim .Application 2 [], .prim .Context 0 []]) =
      PRes.ok { msgid := i64_as_i32 1, op := .UnbindRequest, ctrl := [] }) := by
  refine ⟨?_, ?_⟩
  · exact (claim_C10_envelope_class_ignored .Private [1] 1 (.prim .Application 2 [])
      .UnbindRequest (.prim .Context 0 []) (by decide) (by decide) rfl rfl).1
  · exact (claim_C10_envelope_class_ignored .Application [1] 1 (.prim .Application 2 [])
      .UnbindRequest (.prim .Context 0 []) (by decide) (by decide) rfl rfl).2


theorem optRes_bind_const_err {α β : Type} (o : Option α) (f : α → PRes β)
    (h : ∀ a, f a = PRes.err) : (optRes o).bind f = PRes.err := by
  cases o <;> simp [optRes, PRes.bind, h]

/-- C9: simple-bind decoding — wrong element count fails; a version integer
other than 3 fails; the well-formed triple (universal INTEGER 3, universal
OCTET STRING UTF-8 DN, context-tag-0 primitive password) succeeds; a choice
element whose tag is not context-specific 0 fails; a non-UTF-8 DN fails.
(Every failure returns the code's single unit error.) -/
theorem claim_C9_simplebind_shape :
    (∀ l : List StructureTag, l.length ≠ 3 → LdapSimpleBind.try_from l = PRes.err) ∧
    (∀ (vb : List Nat) (i : Int) (dnT chT : StructureTag),
      ber_integer_to_i64 vb = PRes.ok i → i ≠ 3 →
      LdapSimpleBind.try_from [.prim .Universal 2 vb, dnT, chT] = PRes.err) ∧
    (∀ (vb dn pw : List Nat),
      ber_integer_to_i64 vb = PRes.ok 3 →
      utf8Valid dn = true → utf8Valid pw = true →
      LdapSimpleBind.try_from
          [.prim .Universal 2 vb, .prim .Universal 4 dn, .prim .Context 0 pw] =
        PRes.ok { dn := dn, pw := pw }) ∧
    (∀ (vb : List Nat) (dnT chT : StructureTag),
      ber_integer_to_i64 vb = PRes.ok 3 →
      (chT.cls ≠ .Context ∨ chT.id ≠ 0) →
      LdapSimpleBind.try_from [.prim .Universal 2 vb, dnT, chT] = PRes.err) ∧
    (∀ (vb dn : List Nat) (chT : StructureTag),
      ber_integer_to_i64 vb = PRes.ok 3 → utf8Valid dn = false →
      LdapSimpleBind.try_from [.prim .Universal 2 vb, .prim .Universal 4 dn, chT] =
        PRes.err) := by
  refine ⟨?_, ?_, ?_, ?_, ?_⟩
  · intro l h
    unfold LdapSimpleBind.try_from
    rw [if_neg h]
    rfl
  · intro vb i dnT chT hm hne
    unfold LdapSimpleBind.try_from
    simp [listPop_three, listPop_two, listPop_one,
      StructureTag.match_class, StructureTag.match_id,
      StructureTag.expect_primitive, StructureTag.cls, StructureTag.id,
      optRes, PRes.bind, Option.bind, hm, hne]
  · intro vb dn pw hm hdn hpw
    unfold LdapSimpleBind.try_from
    simp [listPop_three, listPop_two, listPop_one,
      StructureTag.match_class, StructureTag.match_id,
      StructureTag.expect_primitive, StructureTag.cls, StructureTag.id,
      optRes, PRes.bind, Option.bind, hm,
      from_utf8_valid hdn, from_utf8_valid hpw]
  · intro vb dnT chT hm hch
    unfold LdapSimpleBind.try_from
    simp only [listPop_three, listPop_two, listPop_one,
      List.length_cons, List.length_nil, Nat.reduceAdd, if_pos, PRes.bind,
      StructureTag.match_class, StructureTag.match_id,
      StructureTag.expect_primitive, StructureTag.cls, StructureTag.id,
      optRes, Option.bind, hm]
    rw [if_neg (by norm_num)]
    apply optRes_bind_const_err
    intro dns
    cases chT with
    | prim c i bs =>
      simp only [StructureTag.cls, StructureTag.id] at hch
      rcases hch with h | h
      · simp [optRes, PRes.bind, h]
      · by_cases hc : c = TagClass.Context
        · simp [optRes, PRes.bind, hc, h]
        · simp [optRes, PRes.bind, hc]
    | cons c i ks =>
      simp only [StructureTag.cls, StructureTag.id] at hch
      rcases hch with h | h
      · simp [optRes, PRes.bind, h]
      · by_cases hc : c = TagClass.Context
        · simp [optRes, PRes.bind, hc, h]
        · simp [optRes, PRes.bind, hc]
  · intro vb dn chT hm hdn
    unfold LdapSimpleBind.try_from
    simp [listPop_three, listPop_two, listPop_one,
      StructureTag.match_class, StructureTag.match_id,
      StructureTag.expect_primitive, StructureTag.cls, StructureTag.id,
      optRes, PRes.bind, Option.bind, hm, from_utf8, hdn]

/-- C9 (witness): concrete instances of each clause — an empty element list,
version 2, a well-formed bind, a context-tag-1 choice, a non-UTF-8 DN. -/
theorem claim_C9_simplebind_shape_witness :
    (LdapSimpleBind.try_from [] = PRes.err) ∧
    (LdapSimpleBind.try_from
        [.prim .Universal 2 [2], .prim .Universal 4 [], .prim .Context 0 []] =
      PRes.err) ∧
    (LdapSimpleBind.try_from
        [.prim .Universal 2 [3], .prim .Universal 4 [100], .prim .Context 0 [99]] =
      PRes.ok { dn := [100], pw := [99] }) ∧
    (LdapSimpleBind.try_from
        [.prim .Universal 2 [3], .prim .Universal 4 [], .prim .Context 1 []] =
      PRes.err) ∧
    (LdapSimpleBind.try_from
        [.prim .Universal 2 [3], .prim .Universal 4 [128], .prim .Context 0 []] =
      PRes.err) := by
  have h := claim_C9_simplebind_shape
  refine ⟨?_, ?_, ?_, ?_, ?_⟩
  · exact h.1 [] (by decide)
  · exact h.2.1 [2] 2 (.prim .Universal 4 []) (.prim .Context 0 []) (by decide)
      (by norm_num)
  · exact h.2.2.1 [3] [100] [99] (by decide) (by decide) (by decide)
  · exact h.2.2.2.1 [3] (.prim .Universal 4 []) (.prim .Context 1 []) (by decide)
      (Or.inr (by decide))
  · exact h.2.2.2.2 [3] [128] (.prim .Context 0 []) (by decide) (by decide)
